import Mathlib

set_option maxHeartbeats 1000000

/-!
Shallow embedding of the VirtIO vsock driver (`src/device/socket/vsock.rs`):
the connection state, credit accounting, packet dispatch loop and the
receive-buffer recycling discipline, together with theorems checking the
specification's claims against it.
-/

namespace Vsock

/-- `2^32`, the modulus of the header's 32-bit wire fields (`u32`). -/
abbrev U32 : Nat := 2 ^ 32

/-- `2^64`, one past the largest `usize` value (64-bit target). -/
abbrev USIZE : Nat := 2 ^ 64

/-- Wrapping 32-bit addition, the semantics of `u32` `+` with overflow checks off. -/
def wadd32 (a b : Nat) : Nat := (a + b) % U32

/-- Wrapping 32-bit subtraction, the semantics of `u32` `-` with overflow checks off. -/
def wsub32 (a b : Nat) : Nat := (a % U32 + (U32 - b % U32)) % U32

/-- A vsock address: context id and port (`VsockAddr` in the source). -/
structure VsockAddr where
  cid : Nat
  port : Nat
deriving DecidableEq

/-- The decoded operation codes (`VirtioVsockOp`). -/
inductive VirtioVsockOp where
  | Request
  | Response
  | Rst
  | Shutdown
  | Rw
  | CreditUpdate
  | CreditRequest
  | Invalid
deriving DecidableEq

/-- Wire value of the Request operation. -/
def OP_REQUEST : Nat := 1

/-- Wire value of the Response operation. -/
def OP_RESPONSE : Nat := 2

/-- Wire value of the Reset operation. -/
def OP_RST : Nat := 3

/-- Wire value of the Shutdown operation. -/
def OP_SHUTDOWN : Nat := 4

/-- Wire value of the Read/Write-data operation. -/
def OP_RW : Nat := 5

/-- Wire value of the CreditUpdate operation. -/
def OP_CREDIT_UPDATE : Nat := 6

/-- Wire value of the CreditRequest operation. -/
def OP_CREDIT_REQUEST : Nat := 7

/-- Modelled from the spec: the operation-code decoder of the protocol module
(not under `src/`). Total; codes 1..7 decode to the named operations and any
other value decodes to `Invalid`. -/
def opOf (code : Nat) : VirtioVsockOp :=
  if code = OP_REQUEST then .Request
  else if code = OP_RESPONSE then .Response
  else if code = OP_RST then .Rst
  else if code = OP_SHUTDOWN then .Shutdown
  else if code = OP_RW then .Rw
  else if code = OP_CREDIT_UPDATE then .CreditUpdate
  else if code = OP_CREDIT_REQUEST then .CreditRequest
  else .Invalid

/-- Modelled from the spec: the packet header (`VirtioVsockHdr`, protocol module
not under `src/`). Fields are the decoded integer values of the little-endian
wire fields; the default value zeroes every field except the socket type tag,
which defaults to Stream (= 1). -/
structure VirtioVsockHdr where
  src_cid : Nat := 0
  dst_cid : Nat := 0
  src_port : Nat := 0
  dst_port : Nat := 0
  len : Nat := 0
  socket_type : Nat := 1
  op : Nat := 0
  flags : Nat := 0
  buf_alloc : Nat := 0
  fwd_cnt : Nat := 0
deriving DecidableEq

/-- Modelled from the spec: `VirtioVsockHdr::source()`, the source address
carried by a header. -/
def VirtioVsockHdr.source (h : VirtioVsockHdr) : VsockAddr :=
  { cid := h.src_cid, port := h.src_port }

/-- `header.op()`: decode the operation-code field. -/
def VirtioVsockHdr.opDecoded (h : VirtioVsockHdr) : VirtioVsockOp :=
  opOf h.op

/-- Modelled from the spec: the error kinds of the error module (not under
`src/`), plus `QueueError` for failures of the external queue abstraction. -/
inductive SocketError where
  | NotConnected
  | ConnectionExists
  | ConnectionFailed
  | InvalidOperation
  | InsufficientBufferSpaceInPeer
  | BufferTooShort
  | OutputBufferTooShort (len : Nat)
  | InvalidNumber
  | QueueError
deriving DecidableEq

/-- Modelled from the spec: `validate_body_empty` / `check_data_is_empty` of the
protocol module (not under `src/`): operations that must not carry a body fail
with `InvalidOperation` when `len != 0`. -/
def check_data_is_empty (h : VirtioVsockHdr) : Except SocketError Unit :=
  if h.len = 0 then .ok () else .error .InvalidOperation

/-- Per-connection state (`ConnectionInfo` in the source). All integer fields
are `u32` values; `Default` zeroes everything. -/
structure ConnectionInfo where
  dst : VsockAddr := { cid := 0, port := 0 }
  src_port : Nat := 0
  peer_buf_alloc : Nat := 0
  peer_fwd_cnt : Nat := 0
  tx_cnt : Nat := 0
  fwd_cnt : Nat := 0
  has_pending_credit_request : Bool := false
deriving DecidableEq

/-- `ConnectionInfo::peer_free`: `peer_buf_alloc - (tx_cnt - peer_fwd_cnt)`
on `u32` values, i.e. with wrapping 32-bit subtraction. -/
def ConnectionInfo.peer_free (ci : ConnectionInfo) : Nat :=
  wsub32 ci.peer_buf_alloc (wsub32 ci.tx_cnt ci.peer_fwd_cnt)

/-- `ConnectionInfo::new_header`: header template with addresses, ports and the
current `fwd_cnt` filled in, all other fields defaulted. -/
def ConnectionInfo.new_header (ci : ConnectionInfo) (src_cid : Nat) : VirtioVsockHdr :=
  { src_cid := src_cid
    dst_cid := ci.dst.cid
    src_port := ci.src_port
    dst_port := ci.dst.port
    fwd_cnt := ci.fwd_cnt }

/-- The reason a connection was closed (`DisconnectReason`). -/
inductive DisconnectReason where
  | Reset
  | Shutdown
deriving DecidableEq

/-- The type of an event received from the device (`VsockEventType`). -/
inductive VsockEventType where
  | Connected
  | Disconnected (reason : DisconnectReason)
  | Received (length : Nat)
deriving DecidableEq

/-- An event received from the device (`VsockEvent`). -/
structure VsockEvent where
  source : VsockAddr
  destination : VsockAddr
  event_type : VsockEventType
deriving DecidableEq

/-- The fixed header size in bytes: 8+8+4+4+4+2+2+4+4+4. -/
def HDR_SIZE : Nat := 44

/-- The size in bytes of each buffer used in the RX virtqueue. -/
def RX_BUFFER_SIZE : Nat := 512

/-- The size of each virtqueue. -/
def QUEUE_SIZE : Nat := 8

/-- Modelled from the spec: a filled RX buffer as seen by the driver. The wire
codec (protocol module) is not under `src/`, so a buffer is represented as the
decoded header of its fixed-size prefix plus the raw bytes that follow the
header in the same buffer (in the driver those buffers are always
`RX_BUFFER_SIZE` bytes long, so the header prefix is always present). -/
structure RxBuffer where
  hdr : VirtioVsockHdr
  rest : List Nat
deriving DecidableEq

/-- `read_header_and_body`: reads the header from the buffer, checks that the
declared body fits in the buffer (`BufferTooShort`), that the length arithmetic
does not overflow `usize` (`InvalidNumber`) and that the caller-supplied output
buffer of size `bodyCap` can hold it (`OutputBufferTooShort`), and returns the
header together with the copied body bytes. -/
def read_header_and_body (buf : RxBuffer) (bodyCap : Nat) :
    Except SocketError (VirtioVsockHdr × List Nat) :=
  let body_length := buf.hdr.len
  if USIZE ≤ HDR_SIZE + body_length then .error .InvalidNumber
  else if buf.rest.length < body_length then .error .BufferTooShort
  else if bodyCap < body_length then .error (.OutputBufferTooShort body_length)
  else .ok (buf.hdr, buf.rest.take body_length)

/-- Outcome of a driver operation: a value, a propagated `SocketError`, or a
panic (Rust `assert!`/`unwrap` failure); in every case the final driver-visible
state `s` is carried along. -/
inductive StOut (σ α : Type) where
  | ok (a : α) (s : σ)
  | fail (e : SocketError) (s : σ)
  | panicked (s : σ)
deriving DecidableEq

/-- The state carried by an outcome. -/
def StOut.state : StOut σ α → σ
  | .ok _ s => s
  | .fail _ s => s
  | .panicked s => s

/-- A packet pushed to the TX virtqueue: header plus body bytes. -/
abbrev SentPacket := VirtioVsockHdr × List Nat

/-- The driver state relevant to the protocol logic (`VirtIOSocket`): the guest
context id read from the configuration space, and the connection state. The
virtqueues and transport are external collaborators; the RX queue contents are
passed explicitly to the operations that read them, and emitted packets are
returned explicitly. -/
structure DriverState where
  guest_cid : Nat
  connection_info : Option ConnectionInfo
deriving DecidableEq

/-- `poll_rx_queue`: handle packets from the RX virtqueue (modelled as the list
of filled buffers, in order) until one generates an event, an error occurs, or
the queue is empty. Mirrors the source loop: each iteration re-reads the stored
connection state (`unwrap_or_default`), pops one buffer, skips packets that do
not match the active connection, otherwise stores the advertised peer credit
fields and branches on the operation code. -/
def poll_rx_queue (guest_cid : Nat) (bodyCap : Nat) :
    Option ConnectionInfo → List RxBuffer →
    StOut (Option ConnectionInfo × List RxBuffer) (Option VsockEvent)
  | conn, [] => .ok none (conn, [])
  | conn, buf :: rest =>
    let ci0 := conn.getD {}
    match read_header_and_body buf bodyCap with
    | .error e => .fail e (conn, rest)
    | .ok (header, _body) =>
      if header.source ≠ ci0.dst ∨ header.dst_cid ≠ guest_cid
          ∨ header.dst_port ≠ ci0.src_port then
        poll_rx_queue guest_cid bodyCap conn rest
      else
        let ci1 := { ci0 with peer_buf_alloc := header.buf_alloc, peer_fwd_cnt := header.fwd_cnt }
        let conn1 := if conn.isSome then some ci1 else conn
        match header.opDecoded with
        | .Request =>
          match check_data_is_empty header with
          | .error e => .fail e (conn1, rest)
          | .ok _ => poll_rx_queue guest_cid bodyCap conn1 rest
        | .Response =>
          match check_data_is_empty header with
          | .error e => .fail e (conn1, rest)
          | .ok _ =>
            .ok (some { source := ci1.dst
                        destination := { cid := guest_cid, port := ci1.src_port }
                        event_type := .Connected }) (conn1, rest)
        | .CreditUpdate =>
          match check_data_is_empty header with
          | .error e => .fail e (conn1, rest)
          | .ok _ =>
            let ci2 := { ci1 with has_pending_credit_request := false }
            let conn2 := if conn1.isSome then some ci2 else conn1
            poll_rx_queue guest_cid bodyCap conn2 rest
        | .Rst =>
          match check_data_is_empty header with
          | .error e => .fail e (conn1, rest)
          | .ok _ =>
            .ok (some { source := ci1.dst
                        destination := { cid := guest_cid, port := ci1.src_port }
                        event_type := .Disconnected .Reset }) (none, rest)
        | .Shutdown =>
          match check_data_is_empty header with
          | .error e => .fail e (conn1, rest)
          | .ok _ =>
            .ok (some { source := ci1.dst
                        destination := { cid := guest_cid, port := ci1.src_port }
                        event_type := .Disconnected .Shutdown }) (none, rest)
        | .Rw =>
          match conn1 with
          | none => .panicked (conn1, rest)
          | some c =>
            .ok (some { source := ci1.dst
                        destination := { cid := guest_cid, port := ci1.src_port }
                        event_type := .Received header.len })
              (some { c with fwd_cnt := wadd32 c.fwd_cnt header.len }, rest)
        | .CreditRequest =>
          match check_data_is_empty header with
          | .error e => .fail e (conn1, rest)
          | .ok _ => poll_rx_queue guest_cid bodyCap conn1 rest
        | .Invalid => .fail .InvalidOperation (conn1, rest)

/-- `poll_recv`: fails with `NotConnected` when idle; otherwise first sends a
`CreditUpdate` packet advertising `buf_alloc = buffer.len() as u32` and only
then drains the RX dispatch loop. The outcome state carries the driver state,
the remaining RX queue and the packets sent during the call, in order. -/
def poll_recv (d : DriverState) (bufCap : Nat) (rx : List RxBuffer) :
    StOut (DriverState × List RxBuffer × List SentPacket) (Option VsockEvent) :=
  match d.connection_info with
  | none => .fail .NotConnected (d, rx, [])
  | some ci =>
    let hdr := { ci.new_header d.guest_cid with
                   op := OP_CREDIT_UPDATE, buf_alloc := bufCap % U32 }
    let sent : List SentPacket := [(hdr, [])]
    match poll_rx_queue d.guest_cid bufCap d.connection_info rx with
    | .ok ev (conn1, rx1) => .ok ev ({ d with connection_info := conn1 }, rx1, sent)
    | .fail e (conn1, rx1) => .fail e ({ d with connection_info := conn1 }, rx1, sent)
    | .panicked (conn1, rx1) => .panicked ({ d with connection_info := conn1 }, rx1, sent)

/-- `wait_for_recv`: busy-polls `poll_recv` until an event arrives. Since the
dispatch loop yields no event only once the finite RX trace is exhausted, a
spin that would never observe an event is modelled as the value `none`. -/
def wait_for_recv (d : DriverState) (bufCap : Nat) (rx : List RxBuffer) :
    StOut (DriverState × List RxBuffer × List SentPacket) (Option VsockEvent) :=
  match poll_recv d bufCap rx with
  | .ok (some ev) s => .ok (some ev) s
  | .ok none s => .ok none s
  | .fail e s => .fail e s
  | .panicked s => .panicked s

/-- `wait_for_connect`: waits (with an empty body buffer) for the first event;
`Connected` is success, `Disconnected` is `ConnectionFailed`, `Received` is
`InvalidOperation`. The value `none` again marks a spin that never ends. -/
def wait_for_connect (d : DriverState) (rx : List RxBuffer) :
    StOut (DriverState × List RxBuffer × List SentPacket) (Option Unit) :=
  match wait_for_recv d 0 rx with
  | .ok (some ev) s =>
    match ev.event_type with
    | .Connected => .ok (some ()) s
    | .Disconnected _ => .fail .ConnectionFailed s
    | .Received _ => .fail .InvalidOperation s
  | .ok none s => .ok none s
  | .fail e s => .fail e s
  | .panicked s => .panicked s

/-- `connect`: fails with `ConnectionExists` when a connection already exists;
otherwise sends a body-less Request packet built from a fresh default
connection state and stores that state. -/
def connect (d : DriverState) (destination : VsockAddr) (src_port : Nat) :
    StOut (DriverState × List SentPacket) Unit :=
  if d.connection_info.isSome then .fail .ConnectionExists (d, [])
  else
    let newCi : ConnectionInfo := { dst := destination, src_port := src_port }
    let hdr := { newCi.new_header d.guest_cid with op := OP_REQUEST }
    .ok () ({ d with connection_info := some newCi }, [(hdr, [])])

/-- `send`: fails with `NotConnected` when idle. Checks
`peer_free() as usize >= buffer.len()` (`check_peer_buffer_is_sufficient`);
when insufficient it emits one body-less CreditRequest packet unless
`has_pending_credit_request` is already set, records the flag, and fails with
`InsufficientBufferSpaceInPeer`. When sufficient it emits the Rw packet with
`len = buffer.len() as u32` and `buf_alloc = 0` and adds that length to
`tx_cnt`. -/
def send (d : DriverState) (buffer : List Nat) :
    StOut (DriverState × List SentPacket) Unit :=
  match d.connection_info with
  | none => .fail .NotConnected (d, [])
  | some ci =>
    if ci.peer_free ≥ buffer.length then
      let len := buffer.length % U32
      let hdr := { ci.new_header d.guest_cid with op := OP_RW, len := len, buf_alloc := 0 }
      let ci1 := { ci with tx_cnt := wadd32 ci.tx_cnt len }
      .ok () ({ d with connection_info := some ci1 }, [(hdr, buffer)])
    else if ci.has_pending_credit_request then
      .fail .InsufficientBufferSpaceInPeer ({ d with connection_info := some ci }, [])
    else
      let creditHdr := { ci.new_header d.guest_cid with op := OP_CREDIT_REQUEST }
      let ci1 := { ci with has_pending_credit_request := true }
      .fail .InsufficientBufferSpaceInPeer
        ({ d with connection_info := some ci1 }, [(creditHdr, [])])

/-- `force_close`: sends a body-less Reset packet and clears the connection
state; fails with `NotConnected` when idle. -/
def force_close (d : DriverState) :
    StOut (DriverState × List SentPacket) Unit :=
  match d.connection_info with
  | none => .fail .NotConnected (d, [])
  | some ci =>
    let hdr := { ci.new_header d.guest_cid with op := OP_RST }
    .ok () ({ d with connection_info := none }, [(hdr, [])])

/-- Modelled from the spec: the RX virtqueue's descriptor bookkeeping (the
queue abstraction is an external collaborator, not under `src/`). Free
descriptor indices form a stack — `add` takes the head, `pop_used` pushes the
reclaimed index back on — and the device reports filled buffers in FIFO order
through `used`. -/
structure RxVirtq where
  free : List Nat
  used : List Nat
deriving DecidableEq

/-- `VirtQueue::add` with a single device-writable buffer: take the head of the
free descriptor list as the token; `none` when the queue is full. -/
def virtq_add (q : RxVirtq) : Option (Nat × RxVirtq) :=
  match q.free with
  | [] => none
  | t :: ts => some (t, { q with free := ts })

/-- `VirtQueue::pop_used` on the front used entry: reclaim the descriptor,
pushing its index back onto the free list. -/
def virtq_pop_used (q : RxVirtq) (token : Nat) : RxVirtq :=
  { free := token :: q.free, used := q.used.tail }

/-- The descriptor-level skeleton of `pop_packet_from_rx_queue`: peek the used
ring; if a token is pending, pop it, immediately re-add the same slot's buffer,
and `assert_eq!(new_token, token)` — a differing token is a panic. -/
def pop_packet_tokens (q : RxVirtq) : StOut RxVirtq (Option Nat) :=
  match q.used with
  | [] => .ok none q
  | token :: _ =>
    let q1 := virtq_pop_used q token
    match virtq_add q1 with
    | none => .fail .QueueError q1
    | some (newToken, q2) =>
      if newToken = token then .ok (some token) q2 else .panicked q2

/-- Repeated pop/resubmit cycles: after each successful pop the device refills
the recycled slot, so its token reappears at the back of the used ring. -/
def runCycles : Nat → RxVirtq → StOut RxVirtq Unit
  | 0, q => .ok () q
  | n + 1, q =>
    match pop_packet_tokens q with
    | .ok none q1 => .ok () q1
    | .ok (some t) q1 => runCycles n { q1 with used := q1.used ++ [t] }
    | .fail e q1 => .fail e q1
    | .panicked q1 => .panicked q1

/-- Each pop either finds nothing or returns the front token with that very
slot re-submitted (the free list is unchanged overall). -/
lemma pop_packet_tokens_spec (q : RxVirtq) :
    pop_packet_tokens q = .ok none q ∨
      ∃ t ts, q.used = t :: ts ∧
        pop_packet_tokens q = .ok (some t) { free := q.free, used := ts } := by
  match hq : q.used with
  | [] =>
    left
    simp [pop_packet_tokens, hq]
  | t :: ts =>
    right
    exact ⟨t, ts, rfl, by simp [pop_packet_tokens, hq, virtq_pop_used, virtq_add]⟩

/-- Arbitrarily many pop/resubmit cycles run without a panic or an error. -/
lemma runCycles_ok : ∀ (n : Nat) (q : RxVirtq), ∃ q1, runCycles n q = .ok () q1 := by
  intro n
  induction n with
  | zero => exact fun q => ⟨q, rfl⟩
  | succ n ih =>
    intro q
    rcases pop_packet_tokens_spec q with h | ⟨t, ts, _, h⟩
    · exact ⟨q, by rw [runCycles, h]⟩
    · rcases ih { free := q.free, used := ts ++ [t] } with ⟨q1, h1⟩
      exact ⟨q1, by rw [runCycles, h]; exact h1⟩

/-- When the dispatch loop reports no event, it has consumed the whole RX
queue. -/
lemma poll_rx_queue_ok_none (g cap : Nat) :
    ∀ (rx : List RxBuffer) (conn conn1 : Option ConnectionInfo) (rx1 : List RxBuffer),
      poll_rx_queue g cap conn rx = .ok none (conn1, rx1) → rx1 = [] := by
  intro rx
  induction rx with
  | nil =>
    intro conn conn1 rx1 h
    simp only [poll_rx_queue, StOut.ok.injEq, Prod.mk.injEq] at h
    exact h.2.2.symm
  | cons buf rest ih =>
    intro conn conn1 rx1 h
    simp only [poll_rx_queue] at h
    split at h
    · simp at h
    · split at h
      · exact ih _ _ _ h
      · split at h
        · -- Request
          split at h
          · simp at h
          · exact ih _ _ _ h
        · -- Response
          split at h
          · simp at h
          · simp at h
        · -- CreditUpdate
          split at h
          · simp at h
          · exact ih _ _ _ h
        · -- Rst
          split at h <;> simp at h
        · -- Shutdown
          split at h <;> simp at h
        · -- Rw
          split at h <;> simp at h
        · -- CreditRequest
          split at h
          · simp at h
          · exact ih _ _ _ h
        · -- Invalid
          simp at h

/-- A `Disconnected` event from the dispatch loop always leaves the stored
connection state cleared. -/
lemma poll_rx_queue_disconnected (g cap : Nat) :
    ∀ (rx : List RxBuffer) (conn conn1 : Option ConnectionInfo) (rx1 : List RxBuffer)
      (ev : VsockEvent) (r : DisconnectReason),
      poll_rx_queue g cap conn rx = .ok (some ev) (conn1, rx1) →
      ev.event_type = .Disconnected r → conn1 = none := by
  intro rx
  induction rx with
  | nil =>
    intro conn conn1 rx1 ev r h _
    simp only [poll_rx_queue] at h
    simp at h
  | cons buf rest ih =>
    intro conn conn1 rx1 ev r h hr
    simp only [poll_rx_queue] at h
    split at h
    · simp at h
    · split at h
      · exact ih _ _ _ _ _ h hr
      · split at h
        · -- Request
          split at h
          · simp at h
          · exact ih _ _ _ _ _ h hr
        · -- Response
          split at h
          · simp at h
          · simp only [StOut.ok.injEq, Option.some.injEq, Prod.mk.injEq] at h
            obtain ⟨hev, -, -⟩ := h
            rw [← hev] at hr
            simp at hr
        · -- CreditUpdate
          split at h
          · simp at h
          · exact ih _ _ _ _ _ h hr
        · -- Rst
          split at h
          · simp at h
          · simp only [StOut.ok.injEq, Option.some.injEq, Prod.mk.injEq] at h
            obtain ⟨-, hconn, -⟩ := h
            exact hconn.symm
        · -- Shutdown
          split at h
          · simp at h
          · simp only [StOut.ok.injEq, Option.some.injEq, Prod.mk.injEq] at h
            obtain ⟨-, hconn, -⟩ := h
            exact hconn.symm
        · -- Rw
          split at h
          · simp at h
          · simp only [StOut.ok.injEq, Option.some.injEq, Prod.mk.injEq] at h
            obtain ⟨hev, -, -⟩ := h
            rw [← hev] at hr
            simp at hr
        · -- CreditRequest
          split at h
          · simp at h
          · exact ih _ _ _ _ _ h hr
        · -- Invalid
          simp at h

/-- C1: `peer_free()` is bounded by the 32-bit width and, as an integer, equals
`peer_buf_alloc - (tx_cnt - peer_fwd_cnt)` reduced modulo `2^32`, i.e. the
wrapping unsigned 32-bit evaluation of the spec's formula — for every
`ConnectionInfo` state, in particular every reachable one, including states
where either subtraction crosses the integer width boundary. -/
theorem peer_free_wrapping (ci : ConnectionInfo) :
    ci.peer_free < U32 ∧
      (ci.peer_free : Int) =
        ((ci.peer_buf_alloc : Int) - ((ci.tx_cnt : Int) - (ci.peer_fwd_cnt : Int)))
          % (2 ^ 32 : Int) := by
  unfold ConnectionInfo.peer_free wsub32
  constructor
  · exact Nat.mod_lt _ (by norm_num)
  · simp only [U32]
    omega

/-- A `Disconnected` event returned by `poll_recv` always leaves the driver
with no connection state. -/
lemma poll_recv_ok_some_disconnected
    (d : DriverState) (cap : Nat) (rx : List RxBuffer) (ev : VsockEvent)
    (d1 : DriverState) (rx1 : List RxBuffer) (sent : List SentPacket) (r : DisconnectReason)
    (h : poll_recv d cap rx = .ok (some ev) (d1, rx1, sent))
    (hr : ev.event_type = .Disconnected r) : d1.connection_info = none := by
  simp only [poll_recv] at h
  split at h
  · simp at h
  · split at h
    · rename_i hpoll
      simp only [StOut.ok.injEq, Prod.mk.injEq] at h
      obtain ⟨hev, hd1, -, -⟩ := h
      subst hev
      have hnone := poll_rx_queue_disconnected _ _ _ _ _ _ _ _ hpoll hr
      rw [← hd1]
      exact hnone
    · simp at h
    · simp at h

/-- C2: a `send` while connected with `peer_free()` smaller than the payload
fails with `InsufficientBufferSpaceInPeer` and emits exactly one CreditRequest
packet when `has_pending_credit_request` was unset; the flag is recorded, and a
second identical `send` before any CreditUpdate fails the same way but emits no
packet at all. -/
theorem send_insufficient_credit_request_once
    (d : DriverState) (ci : ConnectionInfo) (buffer : List Nat)
    (hconn : d.connection_info = some ci)
    (hflag : ci.has_pending_credit_request = false)
    (hfree : ci.peer_free < buffer.length) :
    send d buffer =
      .fail .InsufficientBufferSpaceInPeer
        ({ d with connection_info := some { ci with has_pending_credit_request := true } },
          [({ ci.new_header d.guest_cid with op := OP_CREDIT_REQUEST }, [])]) ∧
    opOf OP_CREDIT_REQUEST = .CreditRequest ∧
    send { d with connection_info := some { ci with has_pending_credit_request := true } }
        buffer =
      .fail .InsufficientBufferSpaceInPeer
        ({ d with connection_info := some { ci with has_pending_credit_request := true } },
          []) := by
  have hnot : ¬ ci.peer_free ≥ buffer.length := Nat.not_le.mpr hfree
  have hfree1 : ({ ci with has_pending_credit_request := true } : ConnectionInfo).peer_free
      = ci.peer_free := rfl
  refine ⟨?_, by decide, ?_⟩
  · simp [send, hconn, hflag, hnot]
  · simp [send, hfree1, hnot]

/-- C9: `connect` fails with `ConnectionExists` exactly when a connection
already exists; from the idle state, `connect` succeeds, a following
`force_close` returns the driver to idle, and a subsequent `connect` succeeds
again. -/
theorem connect_force_close_reconnect
    (d : DriverState) (dst dst2 : VsockAddr) (port port2 : Nat) :
    ((∃ s, connect d dst port = .fail .ConnectionExists s) ↔
      d.connection_info.isSome = true) ∧
    (d.connection_info = none →
      ∃ d1 p1 d2 p2 d3 p3,
        connect d dst port = .ok () (d1, p1) ∧
        force_close d1 = .ok () (d2, p2) ∧
        d2.connection_info = none ∧
        connect d2 dst2 port2 = .ok () (d3, p3) ∧
        d3.connection_info.isSome = true) := by
  constructor
  · cases hc : d.connection_info <;> simp [connect, hc]
  · intro hnone
    obtain ⟨g, cinfo⟩ := d
    have hc : cinfo = none := hnone
    subst hc
    exact ⟨_, _, _, _, _, _, rfl, rfl, rfl, rfl, rfl⟩

/-- C10: `poll_recv` while idle fails with `NotConnected`, sending nothing and
leaving the RX queue untouched; in particular, after a call returns a
`Disconnected` event, any further `poll_recv` fails with `NotConnected`. -/
theorem poll_recv_not_connected
    (d : DriverState) (bufCap bufCap2 : Nat) (rx rx2 : List RxBuffer) :
    (d.connection_info = none →
      poll_recv d bufCap rx = .fail .NotConnected (d, rx, [])) ∧
    (∀ ev d1 rx1 sent r,
      poll_recv d bufCap rx = .ok (some ev) (d1, rx1, sent) →
      ev.event_type = .Disconnected r →
      poll_recv d1 bufCap2 rx2 = .fail .NotConnected (d1, rx2, [])) := by
  constructor
  · intro h
    simp [poll_recv, h]
  · intro ev d1 rx1 sent r h hr
    have hd1 := poll_recv_ok_some_disconnected d bufCap rx ev d1 rx1 sent r h hr
    simp [poll_recv, hd1]

/-- C4: every `poll_recv` while connected sends exactly one packet, a
CreditUpdate whose `buf_alloc` equals the caller buffer's length, whatever the
outcome (so in particular before any packet is popped); and whenever the
dispatch loop yields no event — which happens exactly once the queue is
drained — the call returns no event. -/
theorem poll_recv_credit_update_first
    (d : DriverState) (ci : ConnectionInfo) (bufCap : Nat) (rx : List RxBuffer)
    (hconn : d.connection_info = some ci) (hcap : bufCap < U32) :
    (poll_recv d bufCap rx).state.2.2 =
      [({ ci.new_header d.guest_cid with op := OP_CREDIT_UPDATE, buf_alloc := bufCap }, [])] ∧
    opOf OP_CREDIT_UPDATE = .CreditUpdate ∧
    (∀ conn1 rx1,
      poll_rx_queue d.guest_cid bufCap (some ci) rx = .ok none (conn1, rx1) →
      rx1 = [] ∧
        poll_recv d bufCap rx =
          .ok none ({ d with connection_info := conn1 }, rx1,
            [({ ci.new_header d.guest_cid with
                  op := OP_CREDIT_UPDATE, buf_alloc := bufCap }, [])])) := by
  refine ⟨?_, by decide, ?_⟩
  · simp only [poll_recv, hconn, Nat.mod_eq_of_lt hcap]
    split <;> simp [StOut.state]
  · intro conn1 rx1 hp
    refine ⟨poll_rx_queue_ok_none _ _ _ _ _ _ hp, ?_⟩
    simp [poll_recv, hconn, hp, Nat.mod_eq_of_lt hcap]

/-- C5: a packet matching the active connection carrying Reset or Shutdown with
an empty body clears the connection state and returns a `Disconnected` event
whose reason is `Reset` for Reset and `Shutdown` for Shutdown. -/
theorem dispatch_reset_shutdown_disconnects
    (g cap : Nat) (ci : ConnectionInfo) (buf : RxBuffer) (rest : List RxBuffer)
    (hdr : VirtioVsockHdr) (body : List Nat)
    (hread : read_header_and_body buf cap = .ok (hdr, body))
    (hsrc : hdr.source = ci.dst) (hcid : hdr.dst_cid = g) (hport : hdr.dst_port = ci.src_port)
    (hlen : hdr.len = 0)
    (hop : hdr.opDecoded = .Rst ∨ hdr.opDecoded = .Shutdown) :
    poll_rx_queue g cap (some ci) (buf :: rest) =
      .ok (some { source := ci.dst
                  destination := { cid := g, port := ci.src_port }
                  event_type := .Disconnected
                    (if hdr.opDecoded = .Rst then .Reset else .Shutdown) })
        (none, rest) := by
  rcases hop with hop | hop <;>
    simp [poll_rx_queue, hread, hsrc, hcid, hport, hop, check_data_is_empty, hlen]

/-- C7: a popped packet whose source address, destination context id or
destination port does not match the active connection is discarded: the loop
goes on to the next packet with the stored connection state untouched. -/
theorem dispatch_skips_mismatched_packet
    (g cap : Nat) (ci : ConnectionInfo) (buf : RxBuffer) (rest : List RxBuffer)
    (hdr : VirtioVsockHdr) (body : List Nat)
    (hread : read_header_and_body buf cap = .ok (hdr, body))
    (hmis : hdr.source ≠ ci.dst ∨ hdr.dst_cid ≠ g ∨ hdr.dst_port ≠ ci.src_port) :
    poll_rx_queue g cap (some ci) (buf :: rest) = poll_rx_queue g cap (some ci) rest := by
  simp only [poll_rx_queue, hread]
  rw [if_pos]
  simpa using hmis

/-- C8: a matching CreditUpdate with an empty body updates the cached peer
credit fields, clears `has_pending_credit_request`, produces no event and the
loop continues with the next packet; with a non-empty body the call fails with
the empty-body validation error, the credit fields having been stored but the
flag left alone, and the loop stops there. -/
theorem dispatch_credit_update_behavior
    (g cap : Nat) (ci : ConnectionInfo) (buf : RxBuffer) (rest : List RxBuffer)
    (hdr : VirtioVsockHdr) (body : List Nat)
    (hread : read_header_and_body buf cap = .ok (hdr, body))
    (hsrc : hdr.source = ci.dst) (hcid : hdr.dst_cid = g) (hport : hdr.dst_port = ci.src_port)
    (hop : hdr.opDecoded = .CreditUpdate) :
    (hdr.len = 0 →
      poll_rx_queue g cap (some ci) (buf :: rest) =
        poll_rx_queue g cap
          (some { ci with peer_buf_alloc := hdr.buf_alloc, peer_fwd_cnt := hdr.fwd_cnt,
                          has_pending_credit_request := false }) rest) ∧
    (hdr.len ≠ 0 →
      poll_rx_queue g cap (some ci) (buf :: rest) =
        .fail .InvalidOperation
          (some { ci with peer_buf_alloc := hdr.buf_alloc, peer_fwd_cnt := hdr.fwd_cnt },
            rest)) := by
  constructor <;> intro hlen <;>
    simp [poll_rx_queue, hread, hsrc, hcid, hport, hop, check_data_is_empty, hlen]

/-- C6: when waiting for the peer's answer to a connection request, the first
event decides the result: `Connected` is success, `Disconnected` (e.g. the peer
sent Reset instead of Response) is `ConnectionFailed` with the connection state
cleared, and a data event is `InvalidOperation`. -/
theorem wait_for_connect_event_mapping
    (d : DriverState) (rx : List RxBuffer) (ev : VsockEvent)
    (s : DriverState × List RxBuffer × List SentPacket)
    (h : wait_for_recv d 0 rx = .ok (some ev) s) :
    (ev.event_type = .Connected → wait_for_connect d rx = .ok (some ()) s) ∧
    (∀ r, ev.event_type = .Disconnected r →
      wait_for_connect d rx = .fail .ConnectionFailed s ∧ s.1.connection_info = none) ∧
    (∀ n, ev.event_type = .Received n →
      wait_for_connect d rx = .fail .InvalidOperation s) := by
  have hpoll : poll_recv d 0 rx = .ok (some ev) s := by
    simp only [wait_for_recv] at h
    split at h
    · rename_i hp
      simp only [StOut.ok.injEq, Option.some.injEq] at h
      obtain ⟨hev, hs⟩ := h
      rw [hev, hs] at hp
      exact hp
    · simp at h
    · simp at h
    · simp at h
  refine ⟨?_, ?_, ?_⟩
  · intro hev
    simp [wait_for_connect, h, hev]
  · intro r hev
    refine ⟨by simp [wait_for_connect, h, hev], ?_⟩
    exact poll_recv_ok_some_disconnected d 0 rx ev s.1 s.2.1 s.2.2 r (by rw [hpoll]) hev
  · intro n hev
    simp [wait_for_connect, h, hev]

/-- C3: popping the filled slot at the front of the used ring re-submits that
very slot and is assigned the same token (the re-add takes the just-recycled
descriptor); were the queue to hand back a different token the driver would
panic (`assert_eq!`), and over arbitrarily many pop/resubmit cycles no panic or
error ever occurs. -/
theorem rx_slot_token_stable
    (q : RxVirtq) (t : Nat) (ts : List Nat) (h : q.used = t :: ts) :
    pop_packet_tokens q = .ok (some t) { free := q.free, used := ts } ∧
    ∀ n, ∃ q1, runCycles n q = .ok () q1 := by
  constructor
  · simp [pop_packet_tokens, h, virtq_pop_used, virtq_add]
  · exact fun n => runCycles_ok n q

/-- Witness for C2: with no advertised peer credit, a 1-byte `send` fails with
`InsufficientBufferSpaceInPeer` and emits exactly one CreditRequest; the flag
is recorded in the stored connection state. -/
theorem send_insufficient_witness :
    send { guest_cid := 66,
           connection_info := some { dst := { cid := 2, port := 1234 }, src_port := 4321 } }
        [7] =
      .fail .InsufficientBufferSpaceInPeer
        ({ guest_cid := 66,
           connection_info := some { dst := { cid := 2, port := 1234 }, src_port := 4321,
                                     has_pending_credit_request := true } },
          [({ src_cid := 66, dst_cid := 2, src_port := 4321, dst_port := 1234,
              op := OP_CREDIT_REQUEST }, [])]) :=
  (send_insufficient_credit_request_once
    { guest_cid := 66,
      connection_info := some { dst := { cid := 2, port := 1234 }, src_port := 4321 } }
    { dst := { cid := 2, port := 1234 }, src_port := 4321 }
    [7] rfl rfl (by decide)).1

/-- Witness for C3: popping the front filled slot (token 0) re-submits it under
the same token 0 and leaves the free list unchanged. -/
theorem rx_slot_token_stable_witness :
    pop_packet_tokens { free := [3, 4], used := [0, 1] } =
      .ok (some 0) { free := [3, 4], used := [1] } :=
  (rx_slot_token_stable { free := [3, 4], used := [0, 1] } 0 [1] rfl).1

/-- Witness for C4: a `poll_recv` on an empty RX queue returns no event and
sends exactly one CreditUpdate packet carrying `buf_alloc = 64`. -/
theorem poll_recv_credit_update_witness :
    ([] : List RxBuffer) = [] ∧
      poll_recv
          { guest_cid := 66,
            connection_info := some { dst := { cid := 2, port := 1234 }, src_port := 4321 } }
          64 [] =
        .ok none
          ({ guest_cid := 66,
             connection_info := some { dst := { cid := 2, port := 1234 }, src_port := 4321 } },
            [],
            [({ src_cid := 66, dst_cid := 2, src_port := 4321, dst_port := 1234,
                op := OP_CREDIT_UPDATE, buf_alloc := 64 }, [])]) :=
  (poll_recv_credit_update_first
    { guest_cid := 66,
      connection_info := some { dst := { cid := 2, port := 1234 }, src_port := 4321 } }
    { dst := { cid := 2, port := 1234 }, src_port := 4321 }
    64 [] rfl (by decide)).2.2
    (some { dst := { cid := 2, port := 1234 }, src_port := 4321 }) [] rfl

/-- Witness for C5: a matching empty-body Reset packet yields a `Disconnected`
event with reason `Reset` and clears the connection state. -/
theorem dispatch_reset_witness :
    poll_rx_queue 66 0
        (some { dst := { cid := 2, port := 1234 }, src_port := 4321 })
        [{ hdr := { src_cid := 2, dst_cid := 66, src_port := 1234, dst_port := 4321,
                    op := OP_RST }, rest := [] }] =
      .ok (some { source := { cid := 2, port := 1234 }
                  destination := { cid := 66, port := 4321 }
                  event_type := .Disconnected .Reset })
        (none, []) :=
  dispatch_reset_shutdown_disconnects 66 0
    { dst := { cid := 2, port := 1234 }, src_port := 4321 }
    { hdr := { src_cid := 2, dst_cid := 66, src_port := 1234, dst_port := 4321,
               op := OP_RST }, rest := [] }
    []
    { src_cid := 2, dst_cid := 66, src_port := 1234, dst_port := 4321, op := OP_RST }
    [] rfl rfl rfl rfl rfl (Or.inl (by decide))

/-- Witness for C6: when the peer answers the connection request with Response,
`wait_for_connect` succeeds and the stored peer credit is updated. -/
theorem wait_for_connect_witness :
    wait_for_connect
        { guest_cid := 66,
          connection_info := some { dst := { cid := 2, port := 1234 }, src_port := 4321 } }
        [{ hdr := { src_cid := 2, dst_cid := 66, src_port := 1234, dst_port := 4321,
                    op := OP_RESPONSE, buf_alloc := 50 }, rest := [] }] =
      .ok (some ())
        ({ guest_cid := 66,
           connection_info := some { dst := { cid := 2, port := 1234 }, src_port := 4321,
                                     peer_buf_alloc := 50 } },
          [],
          [({ src_cid := 66, dst_cid := 2, src_port := 4321, dst_port := 1234,
              op := OP_CREDIT_UPDATE }, [])]) :=
  (wait_for_connect_event_mapping
    { guest_cid := 66,
      connection_info := some { dst := { cid := 2, port := 1234 }, src_port := 4321 } }
    [{ hdr := { src_cid := 2, dst_cid := 66, src_port := 1234, dst_port := 4321,
                op := OP_RESPONSE, buf_alloc := 50 }, rest := [] }]
    { source := { cid := 2, port := 1234 }
      destination := { cid := 66, port := 4321 }
      event_type := .Connected }
    ({ guest_cid := 66,
       connection_info := some { dst := { cid := 2, port := 1234 }, src_port := 4321,
                                 peer_buf_alloc := 50 } },
      [],
      [({ src_cid := 66, dst_cid := 2, src_port := 4321, dst_port := 1234,
          op := OP_CREDIT_UPDATE }, [])])
    (by decide)).1 rfl

/-- Witness for C7: a packet whose source does not match the active connection
is skipped without touching the connection state. -/
theorem dispatch_skip_witness :
    poll_rx_queue 66 0
        (some { dst := { cid := 2, port := 1234 }, src_port := 4321 })
        [{ hdr := { src_cid := 9, dst_cid := 66, src_port := 9, dst_port := 4321,
                    op := OP_RW }, rest := [] }] =
      poll_rx_queue 66 0
        (some { dst := { cid := 2, port := 1234 }, src_port := 4321 }) [] :=
  dispatch_skips_mismatched_packet 66 0
    { dst := { cid := 2, port := 1234 }, src_port := 4321 }
    { hdr := { src_cid := 9, dst_cid := 66, src_port := 9, dst_port := 4321,
               op := OP_RW }, rest := [] }
    []
    { src_cid := 9, dst_cid := 66, src_port := 9, dst_port := 4321, op := OP_RW }
    [] rfl (Or.inl (by decide))

/-- Witness for C8: a matching empty-body CreditUpdate stores the advertised
credit, clears the pending-credit-request flag and the loop goes on. -/
theorem dispatch_credit_update_witness :
    poll_rx_queue 66 0
        (some { dst := { cid := 2, port := 1234 }, src_port := 4321,
                has_pending_credit_request := true })
        [{ hdr := { src_cid := 2, dst_cid := 66, src_port := 1234, dst_port := 4321,
                    op := OP_CREDIT_UPDATE, buf_alloc := 100, fwd_cnt := 7 }, rest := [] }] =
      poll_rx_queue 66 0
        (some { dst := { cid := 2, port := 1234 }, src_port := 4321,
                peer_buf_alloc := 100, peer_fwd_cnt := 7 }) [] :=
  (dispatch_credit_update_behavior 66 0
    { dst := { cid := 2, port := 1234 }, src_port := 4321,
      has_pending_credit_request := true }
    { hdr := { src_cid := 2, dst_cid := 66, src_port := 1234, dst_port := 4321,
               op := OP_CREDIT_UPDATE, buf_alloc := 100, fwd_cnt := 7 }, rest := [] }
    []
    { src_cid := 2, dst_cid := 66, src_port := 1234, dst_port := 4321,
      op := OP_CREDIT_UPDATE, buf_alloc := 100, fwd_cnt := 7 }
    [] rfl rfl rfl rfl (by decide)).1 rfl

/-- Witness for C9: from the idle state, connect / force_close / connect runs
through with the middle state idle again. -/
theorem connect_reconnect_witness :
    ∃ d1 p1 d2 p2 d3 p3,
      connect { guest_cid := 66, connection_info := none } { cid := 2, port := 1234 } 4321 =
        .ok () (d1, p1) ∧
      force_close d1 = .ok () (d2, p2) ∧
      d2.connection_info = none ∧
      connect d2 { cid := 3, port := 5678 } 8765 = .ok () (d3, p3) ∧
      d3.connection_info.isSome = true :=
  (connect_force_close_reconnect { guest_cid := 66, connection_info := none }
    { cid := 2, port := 1234 } { cid := 3, port := 5678 } 4321 8765).2 rfl

/-- Witness for C10: `poll_recv` while idle fails with `NotConnected`, sending
nothing and leaving the queue alone. -/
theorem poll_recv_not_connected_witness :
    poll_recv { guest_cid := 66, connection_info := none } 64 [] =
      .fail .NotConnected ({ guest_cid := 66, connection_info := none }, [], []) :=
  (poll_recv_not_connected { guest_cid := 66, connection_info := none } 64 64 [] []).1 rfl

end Vsock
